import Mathlib

set_option autoImplicit false

/-!
Shallow embedding of the DevSync IDE synchronization and access-control core
(React/Firestore application).  The definitions below are translated from the
TypeScript source files:

  * `src/pages/Editor.tsx`      — per-document editing session: the
    `onSnapshot` permission check (`isOwner` / `isEditor` / `setIsReadOnly`),
    `handleSave`, `handleDelete`.
  * `src/components/FileGrid.tsx` (`ShareDialog`) — `handleShare`: self-share
    guard, email-to-id resolution against the `users` collection, duplicate
    guard, `sharedWith` merge, notification creation; `handleRemoveShare`,
    `handleUpdatePermission`.
  * `src/pages/SharedFiles.tsx` — shared-with-me listing filter,
    `getFileLanguage`, `getInitialContent`, `handleCreateFile`.
  * `src/pages/FileSystem.tsx`  — owned-files listing filter and its own
    `handleCreateFile`.
  * `StarredFiles` page          — starred listing filter.

Firestore documents are modelled as Lean structures; the JavaScript object
`sharedWith` is an association list from share key to entry; Firestore
timestamps are `Nat`; store writes are explicit values that are applied to a
document by pure functions.  JavaScript string helpers (`trim`, `split`,
`toLowerCase`) are re-implemented over character lists so that every
definition evaluates inside the kernel.
-/

namespace DevSync

/-- The `'editor' | 'viewer'` union type used for `sharedWith` permissions. -/
inductive Permission where
  | editor
  | viewer
deriving Repr, DecidableEq

/-- One entry of a document's `sharedWith` map: `{email, permission, userId?}`
(the optional `userId` field is written by `ShareDialog.handleShare`). -/
structure ShareEntry where
  email : String
  permission : Permission
  userId : Option String
deriving Repr, DecidableEq

/-- The `'file' | 'folder'` union type of the `type` field. -/
inductive FileKind where
  | file
  | folder
deriving Repr, DecidableEq

/-- A stored document of the `files` collection (the `File` interface shared
by `Editor.tsx`, `FileGrid.tsx`, `FileSystem.tsx`, `SharedFiles.tsx`).  The
`sharedWith` JavaScript object is an association list keyed by share key
(a resolved user id, or a raw email); an absent map is the empty list.
`deleted` is the soft-delete marker written by `Editor.handleDelete`. -/
structure File where
  id : String
  name : String
  type : FileKind
  language : Option String
  content : Option String
  lastModified : Nat
  parentId : Option String
  ownerId : String
  starred : Bool
  sharedWith : List (String × ShareEntry)
  deleted : Bool
deriving Repr, DecidableEq

/-- The authenticated user as the pages consume it
(`currentUser.uid`, `currentUser.email`). -/
structure User where
  id : String
  email : String
deriving Repr, DecidableEq

/-- Whitespace as JavaScript's `String.prototype.trim` strips it (the
characters that occur in this code base's inputs). -/
def isWs (c : Char) : Bool :=
  c == ' ' || c == '\t' || c == '\n' || c == '\r'

/-- JavaScript `s.trim()`: drop leading and trailing whitespace. -/
def jsTrim (s : String) : String :=
  String.mk (((s.data.dropWhile isWs).reverse.dropWhile isWs).reverse)

/-- JavaScript `s.split(sep)` for a one-character separator, over the
character list. -/
def splitOnChar (c : Char) : List Char → List (List Char)
  | [] => [[]]
  | x :: xs =>
    match splitOnChar c xs with
    | [] => [[x]]
    | h :: t => if x == c then [] :: h :: t else (x :: h) :: t

/-- JavaScript `s.toLowerCase()` over the character list. -/
def lowerString (s : String) : String :=
  String.mk (s.data.map Char.toLower)

/-- `fileName.split('.').pop()?.toLowerCase()` as the language / initial
content helpers compute it (`split('.')` always yields a non-empty array, so
`pop()` is never `undefined`; a name without a dot yields the whole name). -/
def extensionOf (name : String) : String :=
  lowerString (String.mk ((splitOnChar '.' name.data).getLastD []))

/-- JavaScript property read `m[k]` on a `sharedWith` object. -/
def lookupKey (m : List (String × ShareEntry)) (k : String) : Option ShareEntry :=
  (m.find? (fun p => p.1 == k)).map (·.2)

/-- JavaScript property assignment `m[k] = v` on a copy of a `sharedWith`
object: overwrites an existing key in place, otherwise appends. -/
def objInsert (m : List (String × ShareEntry)) (k : String) (v : ShareEntry) :
    List (String × ShareEntry) :=
  if (m.find? (fun p => p.1 == k)).isSome then
    m.map (fun p => if p.1 == k then (k, v) else p)
  else
    m ++ [(k, v)]

/-- The `sharedWith` keys of a map are pairwise distinct (automatic for a
JavaScript object; an invariant for the association-list model). -/
def keysNodup (m : List (String × ShareEntry)) : Prop :=
  (m.map Prod.fst).Nodup

instance (m : List (String × ShareEntry)) : Decidable (keysNodup m) := by
  unfold keysNodup
  infer_instance

/-! ## Editor session permission check (`Editor.tsx`, `onSnapshot` handler)

```ts
const isOwner = fileData.ownerId === currentUser.uid;
const isEditor = fileData.sharedWith?.[currentUser.email || '']?.permission === 'editor';
setIsReadOnly(!isOwner && !isEditor);
```
-/

/-- `fileData.ownerId === currentUser.uid`. -/
def isOwner (f : File) (u : User) : Bool :=
  f.ownerId == u.id

/-- `fileData.sharedWith?.[currentUser.email || '']?.permission === 'editor'` —
the lookup is keyed by the acting user's *email* only. -/
def isEditor (f : File) (u : User) : Bool :=
  match lookupKey f.sharedWith u.email with
  | some e => e.permission == Permission.editor
  | none => false

/-- `setIsReadOnly(!isOwner && !isEditor)` — the read-only flag of the
session, passed as the `readOnly` prop of `CodeEditor`. -/
def isReadOnly (f : File) (u : User) : Bool :=
  !(isOwner f u) && !(isEditor f u)

/-- The session permission level as the `Editor.tsx` check classifies the
acting user: owner first, else editor by the email-keyed lookup, else a
read-only viewer. -/
inductive PermissionLevel where
  | owner
  | editor
  | viewer
deriving Repr, DecidableEq

/-- The permission classification computed by the `onSnapshot` check of
`Editor.tsx` (lines 96–99). -/
def evaluate (f : File) (u : User) : PermissionLevel :=
  if isOwner f u then PermissionLevel.owner
  else if isEditor f u then PermissionLevel.editor
  else PermissionLevel.viewer

/-- The access-control evaluation as §4.1 of the specification words it (the
second definition of a refinement comparison, written from the spec, not from
the source): Owner iff `ownerId` matches, else the `sharedWith` entry under a
key matching the user's id or email with the id match taking priority, else
none. -/
def evaluateSpec (f : File) (u : User) : Option PermissionLevel :=
  if f.ownerId == u.id then some PermissionLevel.owner
  else
    match lookupKey f.sharedWith u.id with
    | some e =>
      some (match e.permission with
        | Permission.editor => PermissionLevel.editor
        | Permission.viewer => PermissionLevel.viewer)
    | none =>
      match lookupKey f.sharedWith u.email with
      | some e =>
        some (match e.permission with
          | Permission.editor => PermissionLevel.editor
          | Permission.viewer => PermissionLevel.viewer)
      | none => none

/-! ## Saving (`Editor.tsx`, `handleSave`)

```ts
const handleSave = async (content: string | undefined) => {
  if (!file || !currentUser || !content || isSaving) return;
  await updateDoc(fileRef, { content, lastModified: Timestamp.now() });
};
```

There is no permission check on this path; the only guards are the presence
of the file and user, JavaScript truthiness of `content` (which drops both
`undefined` and the empty string) and the `isSaving` re-entrancy flag.
-/

/-- The store write `handleSave` issues:
`updateDoc(files/<fileId>, {content, lastModified: now})`. -/
structure SaveWrite where
  fileId : String
  content : String
deriving Repr, DecidableEq

/-- `Editor.handleSave` as a pure function from its guards to the write it
issues (`none` = early return, no store write). -/
def handleSave (file : Option File) (currentUser : Option User)
    (content : Option String) (isSaving : Bool) : Option SaveWrite :=
  match file, currentUser, content with
  | some f, some _, some c =>
    if c == "" then none
    else if isSaving then none
    else some { fileId := f.id, content := c }
  | _, _, _ => none

/-- Committing a (possible) save write to the stored document: the
merge-patch replaces `content` wholesale and stamps `lastModified`. -/
def applySave (f : File) (w : Option SaveWrite) (now : Nat) : File :=
  match w with
  | none => f
  | some wr =>
    if wr.fileId == f.id then
      { f with content := some wr.content, lastModified := now }
    else f

/-- The content a subscribed session displays after a snapshot delivery
(`value={file.content || ''}` in `Editor.tsx`). -/
def deliveredContent (f : File) : String :=
  f.content.getD ""

/-! ## Soft delete (`Editor.tsx`, `handleDelete`)

```ts
await updateDoc(doc(db, 'files', file.id), { deleted: true });
```
-/

/-- `Editor.handleDelete`: the merge-patch sets `deleted: true` and touches
nothing else. -/
def handleDelete (f : File) : File :=
  { f with deleted := true }

/-! ## Listing filters

`FileSystem.tsx`: a query on `ownerId == uid` whose results are filtered by
the current folder; `StarredFiles`: a query on `ownerId == uid` and
`starred == true`; `SharedFiles.tsx`: the full collection filtered in memory
by membership of the user's email or id in `sharedWith`.  None of the three
consults the `deleted` field.
-/

/-- `currentPath.length > 0 ? currentPath[currentPath.length - 1] : null`. -/
def currentFolderId (currentPath : List String) : Option String :=
  currentPath.getLast?

/-- The in-memory path filter of the owned-files listing
(`FileSystem.tsx`): root documents when no folder is open, else the open
folder's children. -/
def atCurrentPath (currentPath : List String) (f : File) : Bool :=
  match currentFolderId currentPath with
  | none => f.parentId.isNone
  | some last => f.parentId == some last

/-- The owned-files view predicate (`FileSystem.tsx` query + filter). -/
def fileSystemVisible (u : User) (currentPath : List String) (f : File) : Bool :=
  f.ownerId == u.id && atCurrentPath currentPath f

/-- The starred view predicate (`StarredFiles` query:
`ownerId == uid && starred == true`). -/
def starredVisible (u : User) (f : File) : Bool :=
  f.ownerId == u.id && f.starred

/-- The shared-with-me membership test of `SharedFiles.tsx`:
`Object.entries(sharedWith).some(([key, value]) =>
value.email === currentUser.email || key === currentUser.uid)`. -/
def sharedWithMeVisible (u : User) (f : File) : Bool :=
  f.sharedWith.any (fun p => p.2.email == u.email || p.1 == u.id)

/-- The `sharedWith` entries that apply to a given user, by the same
id-or-email matching the shared-with-me filter uses. -/
def grantsFor (u : User) (m : List (String × ShareEntry)) :
    List (String × ShareEntry) :=
  m.filter (fun p => p.2.email == u.email || p.1 == u.id)

/-! ## Sharing (`ShareDialog.handleShare` in `FileGrid.tsx`)

```ts
if (!currentUser || !email.trim()) return;
if (email === currentUser.email) { setError('You cannot share with yourself'); return; }
const q = query(usersRef, where('email', '==', email));
let userId = querySnapshot.empty ? email : querySnapshot.docs[0].id;
if (file.sharedWith?.[userId]) { setError('User already has access'); return; }
sharedWith[userId] = { email, permission, userId };
await updateDoc(fileRef, { sharedWith, lastModified: serverTimestamp() });
await addDoc(notificationsRef, { userId, fileId, fileName, sharedBy, permission, timestamp, read: false });
```
-/

/-- A record of the `notifications` collection created by `handleShare`. -/
structure Notification where
  userId : String
  fileId : String
  fileName : String
  sharedBy : String
  permission : Permission
  timestamp : Nat
  read : Bool
deriving Repr, DecidableEq

/-- The `users` collection as `handleShare` queries it: a list of
`(document id, email)` pairs. -/
def Directory := List (String × String)

/-- Resolution of the share key: the id of the first `users` document whose
`email` field equals the recipient email, else the raw email itself. -/
def resolveShareKey (dir : Directory) (email : String) : String :=
  match List.find? (fun p => p.2 == email) dir with
  | some p => p.1
  | none => email

/-- How a `handleShare` call ended. -/
inductive ShareOutcome where
  | silent
  | cannotShareWithSelf
  | alreadyShared
  | shared
deriving Repr, DecidableEq

/-- The store state `handleShare` touches: the file being shared and the
`notifications` collection. -/
structure ShareState where
  file : File
  notifications : List Notification
deriving Repr, DecidableEq

/-- `ShareDialog.handleShare`, as a pure transition on the touched store
state.  Guards fire in source order: silent return on missing user or blank
(trimmed) email, the self-share error, key resolution against the `users`
directory, the duplicate error, then the `sharedWith` merge +
`lastModified` bump and the notification insert. -/
def handleShare (dir : Directory) (currentUser : Option User) (email : String)
    (permission : Permission) (now : Nat) (s : ShareState) :
    ShareOutcome × ShareState :=
  match currentUser with
  | none => (ShareOutcome.silent, s)
  | some granter =>
    if jsTrim email == "" then (ShareOutcome.silent, s)
    else if email == granter.email then (ShareOutcome.cannotShareWithSelf, s)
    else
      let userId := resolveShareKey dir email
      if (lookupKey s.file.sharedWith userId).isSome then
        (ShareOutcome.alreadyShared, s)
      else
        (ShareOutcome.shared,
          { file := { s.file with
              sharedWith := objInsert s.file.sharedWith userId
                { email := email, permission := permission,
                  userId := some userId },
              lastModified := now },
            notifications := s.notifications ++
              [{ userId := userId, fileId := s.file.id,
                 fileName := s.file.name, sharedBy := granter.email,
                 permission := permission, timestamp := now,
                 read := false }] })

/-! ## File creation

`SharedFiles.handleCreateFile` derives `language` and initial `content` from
the name's extension and copies the containing folder's `sharedWith` map;
`FileSystem.handleCreateFile` writes `content: ''` and no `language` /
`sharedWith` fields at all.
-/

/-- `getFileLanguage` (the identical map in `SharedFiles.tsx` and
`FileSystem.tsx`). -/
def getFileLanguage (fileName : String) : String :=
  match extensionOf fileName with
  | "js" => "javascript"
  | "ts" => "typescript"
  | "py" => "python"
  | "java" => "java"
  | "c" => "c"
  | "cpp" => "cpp"
  | "cs" => "csharp"
  | "html" => "html"
  | "css" => "css"
  | "json" => "json"
  | "md" => "markdown"
  | "txt" => "plaintext"
  | _ => "plaintext"

/-- `getInitialContent` (the identical map in `SharedFiles.tsx` and
`FileSystem.tsx`). -/
def getInitialContent (fileName : String) : String :=
  match extensionOf fileName with
  | "py" => "# Start coding here\n"
  | "java" => "// Start coding here\n"
  | "c" => "// Start coding here\n"
  | "cpp" => "// Start coding here\n"
  | "cs" => "// Start coding here\n"
  | "html" => "<!DOCTYPE html>\n<html>\n<head>\n  <title>Document</title>\n</head>\n<body>\n  \n</body>\n</html>"
  | "css" => "/* Start styling here */\n"
  | "js" => "// Start coding here\n"
  | "ts" => "// Start coding here\n"
  | "json" => "\x7b\n  \n\x7d"
  | "md" => "# Start writing here\n"
  | "txt" => ""
  | _ => "// Start coding here\n"

/-- A document as the create operations add it to the `files` collection
(`addDoc`; the store assigns the id and `serverTimestamp` fills
`lastModified`).  An absent `language`/`content` field is `none`; an absent
`sharedWith` field is the empty map. -/
structure NewFileDoc where
  name : String
  type : FileKind
  language : Option String
  content : Option String
  parentId : Option String
  ownerId : String
  starred : Bool
  sharedWith : List (String × ShareEntry)
deriving Repr, DecidableEq

/-- `files.find(f => f.id === currentFolderId)` in
`SharedFiles.handleCreateFile` (a `null` folder id matches nothing). -/
def currentFolder (files : List File) (currentPath : List String) :
    Option File :=
  match currentFolderId currentPath with
  | none => none
  | some cid => files.find? (fun f => f.id == cid)

/-- `currentFolder?.sharedWith || {}`. -/
def folderSharedWith (files : List File) (currentPath : List String) :
    List (String × ShareEntry) :=
  match currentFolder files currentPath with
  | some folder => folder.sharedWith
  | none => []

/-- The `fileData` document built by `SharedFiles.handleCreateFile`:
extension-derived `language` and `content` for files (both fields removed
for folders), the containing folder's `sharedWith` map (or the empty map at
the top level). -/
def sharedFilesCreateDoc (newFileName : String) (newFileType : FileKind)
    (ownerId : String) (currentPath : List String) (files : List File) :
    NewFileDoc :=
  { name := newFileName, type := newFileType,
    language :=
      if newFileType == FileKind.file then some (getFileLanguage newFileName)
      else none,
    content :=
      if newFileType == FileKind.file then some (getInitialContent newFileName)
      else none,
    parentId := currentFolderId currentPath,
    ownerId := ownerId, starred := false,
    sharedWith := folderSharedWith files currentPath }

/-- A store operation issued by a create or share flow. -/
inductive StoreOp where
  | addFile (d : NewFileDoc)
  | addNotification (n : Notification)
deriving Repr, DecidableEq

/-- `SharedFiles.handleCreateFile` as the list of store operations it issues
(the guard `if (!currentUser || !newFileName.trim()) return;` first). -/
def sharedFilesHandleCreateFile (cu : Option User) (newFileName : String)
    (newFileType : FileKind) (currentPath : List String) (files : List File) :
    List StoreOp :=
  match cu with
  | none => []
  | some u =>
    if jsTrim newFileName == "" then []
    else
      [StoreOp.addFile
        (sharedFilesCreateDoc newFileName newFileType u.id currentPath files)]

/-- The document built by `FileSystem.handleCreateFile`: `content` is the
empty string for files (`null` for folders) and no `language` or
`sharedWith` field is written at all. -/
def fileSystemCreateDoc (newFileName : String) (newFileType : FileKind)
    (ownerId : String) (currentPath : List String) : NewFileDoc :=
  { name := newFileName, type := newFileType,
    language := none,
    content := if newFileType == FileKind.file then some "" else none,
    parentId := currentFolderId currentPath,
    ownerId := ownerId, starred := false,
    sharedWith := [] }

/-- `FileSystem.handleCreateFile` as the list of store operations it
issues. -/
def fileSystemHandleCreateFile (cu : Option User) (newFileName : String)
    (newFileType : FileKind) (currentPath : List String) : List StoreOp :=
  match cu with
  | none => []
  | some u =>
    if jsTrim newFileName == "" then []
    else
      [StoreOp.addFile
        (fileSystemCreateDoc newFileName newFileType u.id currentPath)]

/-! ## Concrete documents and users used by the claim instances -/

/-- User A, owner of the concrete example files. -/
def c2Owner : User := { id := "A", email := "a@x.com" }

/-- User B, registered in the `users` collection as id `B`. -/
def c2UserB : User := { id := "B", email := "b@x.com" }

/-- A file owned by A that has not been shared yet. -/
def c2File0 : File :=
  { id := "F1", name := "main.py", type := FileKind.file,
    language := some "python", content := some "print(1)", lastModified := 0,
    parentId := none, ownerId := "A", starred := false,
    sharedWith := [], deleted := false }

/-- A sharing B's email as editor while B is resolvable in the `users`
collection, so the grant is stored under B's user id. -/
def c2Shared : ShareOutcome × ShareState :=
  handleShare [("B", "b@x.com")] (some c2Owner) "b@x.com" Permission.editor 7
    { file := c2File0, notifications := [] }

/-- A file owned by A and shared with B's email as a *viewer* grant. -/
def c3File : File :=
  { id := "F2", name := "notes.md", type := FileKind.file,
    language := some "markdown", content := some "x", lastModified := 0,
    parentId := none, ownerId := "A", starred := false,
    sharedWith := [("b@x.com",
      { email := "b@x.com", permission := Permission.viewer,
        userId := none })],
    deleted := false }

/-- Another file owned by A, used for the double-grant run. -/
def c4File0 : File :=
  { id := "F3", name := "lib.ts", type := FileKind.file,
    language := some "typescript", content := some "y", lastModified := 0,
    parentId := none, ownerId := "A", starred := false,
    sharedWith := [], deleted := false }

/-- First share: B's email is not yet resolvable (empty `users` directory),
so the viewer grant is stored under the raw email key. -/
def c4Step1 : ShareOutcome × ShareState :=
  handleShare [] (some c2Owner) "b@x.com" Permission.viewer 1
    { file := c4File0, notifications := [] }

/-- Second share of the same email after B registered: the key now resolves
to B's id, the duplicate check misses the email-keyed entry, and an editor
grant is added alongside the viewer grant. -/
def c4Step2 : ShareOutcome × ShareState :=
  handleShare [("B", "b@x.com")] (some c2Owner) "b@x.com" Permission.editor 2
    c4Step1.2

/-- A share state used by the error-path witnesses: `c3File` already carries
a grant under the key `b@x.com`. -/
def c5State : ShareState :=
  { file := c3File, notifications := [] }

/-- A folder shared with B as editor, used by the creation-inheritance
witness. -/
def c8Folder : File :=
  { id := "D1", name := "proj", type := FileKind.folder,
    language := none, content := none, lastModified := 0,
    parentId := none, ownerId := "A", starred := false,
    sharedWith := [("B",
      { email := "b@x.com", permission := Permission.editor,
        userId := some "B" })],
    deleted := false }

end DevSync

namespace DevSync

/-- C1: the session permission check grants Owner exactly when
`ownerId` equals the acting user's id, the owner's session is never
read-only, and an owner is never classified as editor or viewer, whatever
`sharedWith` contains (in particular when it also lists the owner). -/
theorem evaluate_owner_iff (f : File) (u : User) :
    (evaluate f u = PermissionLevel.owner ↔ f.ownerId = u.id) ∧
    (f.ownerId = u.id →
      isReadOnly f u = false ∧ evaluate f u = PermissionLevel.owner) := by
  constructor
  · constructor
    · intro h
      by_cases how : f.ownerId = u.id
      · exact how
      · exfalso
        have : isOwner f u = false := by
          simp [isOwner, how]
        unfold evaluate at h
        rw [this] at h
        by_cases hed : isEditor f u
        · simp [hed] at h
        · simp [hed] at h
    · intro h
      have : isOwner f u = true := by simp [isOwner, h]
      simp [evaluate, this]
  · intro h
    have : isOwner f u = true := by simp [isOwner, h]
    constructor
    · simp [isReadOnly, this]
    · simp [evaluate, this]

/-- Witness for `evaluate_owner_iff`: a document whose owner also appears in
its own `sharedWith` map (as a viewer, keyed by their email) still evaluates
to Owner with a non-read-only session. -/
theorem evaluate_owner_iff_witness :
    evaluate
      { id := "F0", name := "a.py", type := FileKind.file,
        language := some "python", content := some "x", lastModified := 0,
        parentId := none, ownerId := "A", starred := false,
        sharedWith := [("a@x.com",
          { email := "a@x.com", permission := Permission.viewer,
            userId := some "A" })],
        deleted := false }
      { id := "A", email := "a@x.com" } = PermissionLevel.owner ∧
    isReadOnly
      { id := "F0", name := "a.py", type := FileKind.file,
        language := some "python", content := some "x", lastModified := 0,
        parentId := none, ownerId := "A", starred := false,
        sharedWith := [("a@x.com",
          { email := "a@x.com", permission := Permission.viewer,
            userId := some "A" })],
        deleted := false }
      { id := "A", email := "a@x.com" } = false := by
  refine ⟨?_, ?_⟩
  · exact ((evaluate_owner_iff _ _).2 rfl).2
  · exact ((evaluate_owner_iff _ _).2 rfl).1

/-- C2: the share succeeds and records an Editor grant for B under B's
resolved user id — exactly the key `handleShare` writes when the email
resolves — yet the `Editor.tsx` session check, which looks up `sharedWith`
only by the acting user's email, classifies B as a read-only viewer; the
specification's id-or-email evaluation (`evaluateSpec`) grants Editor on the
same state. -/
theorem id_keyed_editor_grant_opens_read_only :
    c2Shared.1 = ShareOutcome.shared ∧
    lookupKey c2Shared.2.file.sharedWith c2UserB.id =
      some { email := "b@x.com", permission := Permission.editor,
             userId := some "B" } ∧
    evaluate c2Shared.2.file c2UserB = PermissionLevel.viewer ∧
    isReadOnly c2Shared.2.file c2UserB = true ∧
    evaluateSpec c2Shared.2.file c2UserB = some PermissionLevel.editor := by
  refine ⟨rfl, rfl, rfl, rfl, rfl⟩

/-- `objInsert` never duplicates a key: an overwrite leaves the key list
unchanged and an append adds a key that was absent. -/
theorem objInsert_keysNodup (m : List (String × ShareEntry)) (k : String)
    (v : ShareEntry) (h : keysNodup m) : keysNodup (objInsert m k v) := by
  unfold objInsert
  split
  · unfold keysNodup at h ⊢
    have hmap :
        (m.map (fun p => if p.1 == k then (k, v) else p)).map Prod.fst =
          m.map Prod.fst := by
      rw [List.map_map]
      apply List.map_congr_left
      intro p _
      by_cases hpk : p.1 == k
      · have hpk' : p.1 = k := by simpa using hpk
        simp [Function.comp, hpk, hpk']
      · simp [Function.comp, hpk]
    rw [hmap]
    exact h
  · rename_i hf
    unfold keysNodup at h ⊢
    have hk : k ∉ m.map Prod.fst := by
      intro hmem
      obtain ⟨p, hp, hfst⟩ := List.mem_map.mp hmem
      have hsome : (m.find? (fun p => p.1 == k)).isSome := by
        rw [List.find?_isSome]
        exact ⟨p, hp, by simp [hfst]⟩
      exact hf hsome
    rw [List.map_append]
    refine List.Nodup.append h (List.nodup_singleton k) ?_
    intro a ha hb
    have : a = k := by simpa using hb
    subst this
    exact hk ha

/-- C3 counterexample: a session whose evaluated permission is Viewer can
still drive `handleSave` (the Save toolbar button is not gated on
`isReadOnly` and `handleSave` performs no permission check): the call issues
a store write and the committed write bumps `lastModified`. -/
theorem viewer_save_issues_store_write :
    evaluate c3File c2UserB = PermissionLevel.viewer ∧
    isReadOnly c3File c2UserB = true ∧
    handleSave (some c3File) (some c2UserB) (some "x") false =
      some { fileId := "F2", content := "x" } ∧
    c3File.lastModified = 0 ∧
    (applySave c3File
      (handleSave (some c3File) (some c2UserB) (some "x") false)
      5).lastModified = 5 := by
  refine ⟨rfl, rfl, rfl, rfl, rfl⟩

/-- C3 amended: a Viewer session is wired read-only (`isReadOnly = true` is
what reaches the editor widget, suppressing widget edits), but the save path
performs no permission check and raises no error: invoked with non-empty
content it issues the full content write for any acting user. -/
theorem viewer_wiring_and_unchecked_save (f : File) (u v : User) (c : String)
    (hc : c ≠ "") :
    (evaluate f u = PermissionLevel.viewer → isReadOnly f u = true) ∧
    handleSave (some f) (some u) (some c) false =
      some { fileId := f.id, content := c } ∧
    handleSave (some f) (some u) (some c) false =
      handleSave (some f) (some v) (some c) false := by
  have hcb : (c == "") = false := by simpa using hc
  refine ⟨?_, ?_, rfl⟩
  · intro h
    by_cases ho : isOwner f u
    · simp [evaluate, ho] at h
    · by_cases he : isEditor f u
      · simp [evaluate, ho, he] at h
      · simp [isReadOnly, ho, he]
  · simp [handleSave, hcb]

/-- Witness for `viewer_wiring_and_unchecked_save` at the viewer state of
`c3File`. -/
theorem viewer_wiring_and_unchecked_save_witness :
    handleSave (some c3File) (some c2UserB) (some "zz") false =
      some { fileId := c3File.id, content := "zz" } :=
  (viewer_wiring_and_unchecked_save c3File c2UserB c2Owner "zz"
    (by decide)).2.1

/-- C4 counterexample: sharing the same email once before and once after the
recipient registers stores two grants for the same person — a viewer grant
under the raw email key and an editor grant under the resolved id key — so
one user simultaneously holds two permission levels on one document. -/
theorem same_user_two_simultaneous_grants :
    c4Step1.1 = ShareOutcome.shared ∧
    c4Step2.1 = ShareOutcome.shared ∧
    c4Step2.2.file.sharedWith =
      [("b@x.com",
         { email := "b@x.com", permission := Permission.viewer,
           userId := some "b@x.com" }),
       ("B",
         { email := "b@x.com", permission := Permission.editor,
           userId := some "B" })] ∧
    grantsFor c2UserB c4Step2.2.file.sharedWith =
      [("b@x.com",
         { email := "b@x.com", permission := Permission.viewer,
           userId := some "b@x.com" }),
       ("B",
         { email := "b@x.com", permission := Permission.editor,
           userId := some "B" })] ∧
    (grantsFor c2UserB c4Step2.2.file.sharedWith).map
        (fun p => p.2.permission) =
      [Permission.viewer, Permission.editor] := by
  refine ⟨rfl, rfl, rfl, ?_, ?_⟩
  · decide
  · decide

/-- C4 amended: `sharedWith` keys stay pairwise distinct across every share
(no key ever holds two entries), and a share whose *resolved key* already
exists is rejected with the already-shared error and changes nothing; the
per-user uniqueness the claim states fails only across the two key spellings
(raw email vs resolved id) of one user. -/
theorem share_keys_unique_and_duplicate_rejected (dir : Directory)
    (cu : Option User) (email : String) (perm : Permission) (now : Nat)
    (s : ShareState) (hk : keysNodup s.file.sharedWith) :
    keysNodup (handleShare dir cu email perm now s).2.file.sharedWith ∧
    (∀ g, cu = some g → jsTrim email ≠ "" → email ≠ g.email →
      (lookupKey s.file.sharedWith (resolveShareKey dir email)).isSome →
      handleShare dir cu email perm now s =
        (ShareOutcome.alreadyShared, s)) := by
  constructor
  · unfold handleShare
    cases cu with
    | none => exact hk
    | some g =>
      dsimp only
      split
      · exact hk
      · split
        · exact hk
        · split
          · exact hk
          · exact objInsert_keysNodup _ _ _ hk
  · intro g hg ht hne hsome
    subst hg
    have h1 : (jsTrim email == "") = false := by simpa using ht
    have h2 : (email == g.email) = false := by simpa using hne
    simp [handleShare, h1, h2, hsome]

/-- Witness for `share_keys_unique_and_duplicate_rejected`: a fresh share
keeps the keys distinct, and re-sharing the already-granted email is
rejected without mutation. -/
theorem share_keys_unique_and_duplicate_rejected_witness :
    keysNodup (handleShare [] (some c2Owner) "c@x.com" Permission.viewer 3
      c5State).2.file.sharedWith ∧
    handleShare [] (some c2Owner) "b@x.com" Permission.editor 3 c5State =
      (ShareOutcome.alreadyShared, c5State) := by
  refine ⟨(share_keys_unique_and_duplicate_rejected [] (some c2Owner)
    "c@x.com" Permission.viewer 3 c5State (by decide)).1, ?_⟩
  exact (share_keys_unique_and_duplicate_rejected [] (some c2Owner)
    "b@x.com" Permission.editor 3 c5State (by decide)).2 c2Owner rfl
    (by decide) (by decide) (by decide)

/-- C5: a share that ends in the self-share or already-shared error returns
the store state untouched (same `sharedWith`, same `lastModified`, no
notification), and sharing to the granter's own email always ends in the
self-share error. -/
theorem share_error_no_mutation (dir : Directory) (cu : Option User)
    (email : String) (perm : Permission) (now : Nat) (s : ShareState) :
    (∀ o s', handleShare dir cu email perm now s = (o, s') →
      o = ShareOutcome.cannotShareWithSelf ∨ o = ShareOutcome.alreadyShared →
      s' = s) ∧
    (∀ g, cu = some g → jsTrim email ≠ "" → email = g.email →
      handleShare dir cu email perm now s =
        (ShareOutcome.cannotShareWithSelf, s)) := by
  constructor
  · intro o s' h ho
    unfold handleShare at h
    cases cu with
    | none =>
      cases h
      rfl
    | some g =>
      dsimp only at h
      split at h
      · cases h; rfl
      · split at h
        · cases h; rfl
        · split at h
          · cases h; rfl
          · cases h
            simp at ho
  · intro g hg ht he
    subst hg
    have h1 : (jsTrim email == "") = false := by simpa using ht
    have h2 : (email == g.email) = true := by simpa using he
    simp [handleShare, h1, h2]

/-- Witness for `share_error_no_mutation`: the owner sharing to their own
email fails with the self-share error and the state is returned as-is. -/
theorem share_error_no_mutation_witness :
    handleShare [] (some c2Owner) "a@x.com" Permission.viewer 3 c5State =
      (ShareOutcome.cannotShareWithSelf, c5State) ∧
    c5State = c5State := by
  have h2 := (share_error_no_mutation [] (some c2Owner) "a@x.com"
    Permission.viewer 3 c5State).2 c2Owner rfl (by decide) rfl
  exact ⟨h2, (share_error_no_mutation [] (some c2Owner) "a@x.com"
    Permission.viewer 3 c5State).1 ShareOutcome.cannotShareWithSelf c5State h2
    (Or.inl rfl)⟩

/-- C6: creating `app.py` on the owned-files screen
(`FileSystem.handleCreateFile`) stores empty content and no `language`
field, even though the extension maps used elsewhere (and defined unused in
the same file) give `python` and `"# Start coding here\n"`, which is what
the shared-files create path stores. -/
theorem fileSystem_create_app_py_divergence :
    fileSystemHandleCreateFile (some c2Owner) "app.py" FileKind.file [] =
      [StoreOp.addFile (fileSystemCreateDoc "app.py" FileKind.file "A" [])] ∧
    (fileSystemCreateDoc "app.py" FileKind.file "A" []).content = some "" ∧
    (fileSystemCreateDoc "app.py" FileKind.file "A" []).language = none ∧
    getFileLanguage "app.py" = "python" ∧
    getInitialContent "app.py" = "# Start coding here\n" ∧
    (sharedFilesCreateDoc "app.py" FileKind.file "A" [] []).language =
      some "python" ∧
    (sharedFilesCreateDoc "app.py" FileKind.file "A" [] []).content =
      some "# Start coding here\n" := by
  refine ⟨rfl, rfl, rfl, rfl, rfl, rfl, rfl⟩

/-- C7: two sequential saves commit as full-content replaces, so applying
the write for `c1` and then the write for `c2` leaves the same stored
document as applying the write for `c2` alone, and every subscribed session
then displays `c2`. -/
theorem sequential_saves_last_write_wins (f : File) (u : User)
    (c1 c2 : String) (t1 t2 : Nat) (h1 : c1 ≠ "") (h2 : c2 ≠ "") :
    applySave (applySave f (handleSave (some f) (some u) (some c1) false) t1)
        (handleSave (some f) (some u) (some c2) false) t2 =
      applySave f (handleSave (some f) (some u) (some c2) false) t2 ∧
    deliveredContent
      (applySave
        (applySave f (handleSave (some f) (some u) (some c1) false) t1)
        (handleSave (some f) (some u) (some c2) false) t2) = c2 := by
  have hb1 : (c1 == "") = false := by simpa using h1
  have hb2 : (c2 == "") = false := by simpa using h2
  have e1 : handleSave (some f) (some u) (some c1) false =
      some { fileId := f.id, content := c1 } := by
    simp [handleSave, hb1]
  have e2 : handleSave (some f) (some u) (some c2) false =
      some { fileId := f.id, content := c2 } := by
    simp [handleSave, hb2]
  rw [e1, e2]
  constructor
  · simp [applySave]
  · simp [applySave, deliveredContent]

/-- Witness for `sequential_saves_last_write_wins` on a concrete file and
two concrete contents. -/
theorem sequential_saves_last_write_wins_witness :
    deliveredContent
      (applySave
        (applySave c2File0
          (handleSave (some c2File0) (some c2Owner) (some "one") false) 1)
        (handleSave (some c2File0) (some c2Owner) (some "two") false) 2) =
      "two" :=
  (sequential_saves_last_write_wins c2File0 c2Owner "one" "two" 1 2
    (by decide) (by decide)).2

/-- C8: the shared-files create operation issues exactly one store
operation — the file insert — whose `sharedWith` is the containing folder's
entire map (empty at the top level), so every grant on the folder applies
verbatim to the new document and no notification is created. -/
theorem shared_create_inherits_folder_acl (u : User) (name : String)
    (ty : FileKind) (path : List String) (files : List File)
    (h : jsTrim name ≠ "") :
    sharedFilesHandleCreateFile (some u) name ty path files =
      [StoreOp.addFile (sharedFilesCreateDoc name ty u.id path files)] ∧
    (sharedFilesCreateDoc name ty u.id path files).sharedWith =
      folderSharedWith files path ∧
    (∀ k e, lookupKey (folderSharedWith files path) k = some e →
      lookupKey (sharedFilesCreateDoc name ty u.id path files).sharedWith k =
        some e) ∧
    (∀ n, StoreOp.addNotification n ∉
      sharedFilesHandleCreateFile (some u) name ty path files) ∧
    (currentFolder files path = none →
      (sharedFilesCreateDoc name ty u.id path files).sharedWith = []) := by
  have hb : (jsTrim name == "") = false := by simpa using h
  refine ⟨?_, rfl, ?_, ?_, ?_⟩
  · simp [sharedFilesHandleCreateFile, hb]
  · intro k e he
    exact he
  · intro n hn
    simp [sharedFilesHandleCreateFile, hb] at hn
  · intro hnone
    simp [sharedFilesCreateDoc, folderSharedWith, hnone]

/-- Witness for `shared_create_inherits_folder_acl`: a file created inside
the shared folder `c8Folder` carries that folder's editor grant for B. -/
theorem shared_create_inherits_folder_acl_witness :
    sharedFilesHandleCreateFile (some c2Owner) "b.py" FileKind.file ["D1"]
        [c8Folder] =
      [StoreOp.addFile
        (sharedFilesCreateDoc "b.py" FileKind.file c2Owner.id ["D1"]
          [c8Folder])] ∧
    (sharedFilesCreateDoc "b.py" FileKind.file c2Owner.id ["D1"]
        [c8Folder]).sharedWith =
      folderSharedWith [c8Folder] ["D1"] :=
  ⟨(shared_create_inherits_folder_acl c2Owner "b.py" FileKind.file ["D1"]
      [c8Folder] (by decide)).1,
   (shared_create_inherits_folder_acl c2Owner "b.py" FileKind.file ["D1"]
      [c8Folder] (by decide)).2.1⟩

/-- C9: the soft delete of the editor sets `deleted = true` and changes no
other field, and none of the listing predicates (owned files, starred,
shared-with-me) or the session permission check reads `deleted`, so a
deleted document stays in every view whose other fields match and opens as
before. -/
theorem soft_delete_stays_in_views (f : File) (u : User)
    (path : List String) :
    (handleDelete f).deleted = true ∧
    fileSystemVisible u path (handleDelete f) = fileSystemVisible u path f ∧
    starredVisible u (handleDelete f) = starredVisible u f ∧
    sharedWithMeVisible u (handleDelete f) = sharedWithMeVisible u f ∧
    evaluate (handleDelete f) u = evaluate f u ∧
    isReadOnly (handleDelete f) u = isReadOnly f u :=
  ⟨rfl, rfl, rfl, rfl, rfl, rfl⟩

/-- C10: a save whose content is `undefined` or the empty string is dropped
by the truthiness guard — no store write is issued and the stored document
is unchanged — and every write `handleSave` does issue carries the non-empty
content it was given, so this path never persists empty content. -/
theorem empty_save_is_dropped (f : File) (u : User) (s : Bool) (now : Nat) :
    handleSave (some f) (some u) none s = none ∧
    handleSave (some f) (some u) (some "") s = none ∧
    applySave f (handleSave (some f) (some u) none s) now = f ∧
    applySave f (handleSave (some f) (some u) (some "") s) now = f ∧
    (∀ c w, handleSave (some f) (some u) (some c) s = some w →
      w.content = c ∧ c ≠ "") := by
  refine ⟨rfl, rfl, rfl, rfl, ?_⟩
  intro c w h
  by_cases hc : c = ""
  · subst hc
    simp [handleSave] at h
  · refine ⟨?_, hc⟩
    have hcb : (c == "") = false := by simpa using hc
    by_cases hs : s
    · simp [handleSave, hcb, hs] at h
    · simp [handleSave, hcb, hs] at h
      subst h
      rfl

/-- Witness for `empty_save_is_dropped`: the empty-content save on `c3File`
issues no write and leaves the document unchanged, while a non-empty save
carries its content. -/
theorem empty_save_is_dropped_witness :
    handleSave (some c3File) (some c2UserB) (some "") false = none ∧
    applySave c3File
      (handleSave (some c3File) (some c2UserB) (some "") false) 9 = c3File ∧
    ({ fileId := "F2", content := "ok" } : SaveWrite).content = "ok" ∧
    "ok" ≠ "" := by
  have hw := (empty_save_is_dropped c3File c2UserB false 9).2.2.2.2 "ok"
    { fileId := "F2", content := "ok" } rfl
  exact ⟨(empty_save_is_dropped c3File c2UserB false 9).2.1,
    (empty_save_is_dropped c3File c2UserB false 9).2.2.2.1, hw.1, hw.2⟩

end DevSync
